import Mathlib

/-!
Verification development for the vineyard-server repository (cognicity REST server).

The embedding covers the response-formatting and caching pipeline:
  * the CAP conversion module (`Cap.js`) — the module's own source is not part of the
    repository snapshot (only its unit tests and its caller `server.js` are), so its
    operations are modelled from the specification, checked against the unit tests;
  * `server.js` — response preparation (`prepareResponse`, `addTimestampToResponse`),
    the response cache (`cacheTemporarily` over the memory-cache dependency),
    the `aggregates/live` hours-window parsing, and the two-router request dispatch.

Numbers appearing in geometry coordinates are modelled as integers (the unit tests use
integer coordinates; the structural claims do not depend on the numeral rendering).
-/

/-- A GeoJSON coordinate pair `[lon, lat]` as it appears in feature geometry. -/
abbrev Coord := Int × Int

/-- Modelled from the spec: the geometry of a feature — a type tag plus nested
coordinate rings (`Cap.js` is not in the repository sources). `other` stands for
any geometry type outside Polygon/MultiPolygon. -/
inductive Geometry where
  | polygon (rings : List (List Coord))
  | multiPolygon (members : List (List (List Coord)))
  | other (tag : String)
deriving DecidableEq, Repr

/-- Modelled from the spec: ring transform — each coordinate pair `[lon, lat]` is
reordered to `lat,lon`, pairs joined by single spaces, in original vertex order. -/
def capRing (ring : List Coord) : String :=
  String.intercalate " " (ring.map (fun c => toString c.2 ++ "," ++ toString c.1))

/-- Modelled from the spec: a MultiPolygon member is valid exactly when it has one ring
(the exterior ring); its ring is extracted, otherwise the member is rejected. -/
def memberExteriorRing : List (List Coord) → Option (List Coord)
  | [r] => some r
  | _ => none

/-- Modelled from the spec: convert all members of a MultiPolygon, all-or-nothing. -/
def capMembers : List (List (List Coord)) → Option (List String)
  | [] => some []
  | m :: rest =>
    match memberExteriorRing m, capMembers rest with
    | some r, some ss => some (capRing r :: ss)
    | _, _ => none

/-- Modelled from the spec (`Cap.js` missing from sources): `toCapArea` — accepts only
Polygon (exactly one ring) and MultiPolygon (every member with exactly one ring);
any other shape yields absent. -/
def toCapArea : Geometry → Option (List String)
  | .polygon rings =>
    match rings with
    | [r] => some [capRing r]
    | _ => none
  | .multiPolygon members => capMembers members
  | .other _ => none

/-- Feature properties used by the CAP pipeline (shape taken from the unit tests). -/
structure FeatureProps where
  state : Int
  last_updated : String
  level_name : String
  parent_name : String
deriving DecidableEq, Repr

/-- A feature: properties plus geometry (read-only input to the pipeline). -/
structure Feature where
  properties : FeatureProps
  geometry : Geometry
deriving DecidableEq, Repr

/-- A CAP area record as the tests observe it (`area.polygon` is the string list). -/
structure Area where
  polygon : List String
deriving DecidableEq, Repr

/-- Modelled from the spec (`Cap.js` missing from sources): `createArea` wraps the
converted polygon strings in an Area record; absent when conversion fails. -/
def createArea (f : Feature) : Option Area :=
  (toCapArea f.geometry).map (fun ps => { polygon := ps })

/-- Deployment configuration injected into the CAP builder: the state-to-severity
lookup table and related text/time policies (external configuration per the spec). -/
structure CapConfig where
  sender : String
  severity : Int → String
  headline : Int → String
  description : Int → String
  expiryHorizon : String → String

/-- A CAP info block (severity classification, texts, window, area). -/
structure Info where
  severity : String
  headline : String
  description : String
  effective : String
  expires : String
  area : Area
deriving DecidableEq, Repr

/-- Modelled from the spec (`Cap.js` missing from sources): `createInfo` — absent when
`state <= 0`; otherwise severity/headline/description come from the configured state
table, the window from the last-updated time, and the Area from the geometry
conversion; absent when the Area is absent. -/
def createInfo (cfg : CapConfig) (f : Feature) : Option Info :=
  if f.properties.state ≤ 0 then none
  else
    match createArea f with
    | none => none
    | some area =>
      some { severity := cfg.severity f.properties.state
             headline := cfg.headline f.properties.state
             description := cfg.description f.properties.state
             effective := f.properties.last_updated
             expires := cfg.expiryHorizon f.properties.last_updated
             area := area }

/-- Hexadecimal digit characters used by the percent-encoder. -/
def hexDigit (n : Nat) : Char :=
  match n % 16 with
  | 0 => '0' | 1 => '1' | 2 => '2' | 3 => '3' | 4 => '4' | 5 => '5' | 6 => '6' | 7 => '7'
  | 8 => '8' | 9 => '9' | 10 => 'A' | 11 => 'B' | 12 => 'C' | 13 => 'D' | 14 => 'E'
  | _ => 'F'

/-- Modelled from the spec: percent-encoding of one character — unreserved characters
pass through, anything else becomes a percent group of hex digits. (A multi-byte
character would expand to several percent groups; the groups still consist only of
the percent sign and hex digits, which is what the claims depend on.) -/
def encodeChar (c : Char) : List Char :=
  if c.isAlphanum || c = '-' || c = '_' || c = '.' || c = '~' then [c]
  else '%' :: hexDigit (c.toNat / 16) :: [hexDigit c.toNat]

/-- Modelled from the spec: percent/URL-encoding of a string, character by character. -/
def urlEncode (s : String) : String := String.mk (s.data.flatMap encodeChar)

/-- A CAP alert record; its Info may be absent (callers filter before serialization). -/
structure Alert where
  identifier : String
  sender : String
  sent : String
  info : Option Info
deriving DecidableEq, Repr

/-- Modelled from the spec (`Cap.js` missing from sources): `createAlert` — always
produces an Alert; the identifier concatenates parent/level names and the timestamp
and is percent-encoded; the Info field is `createInfo`. -/
def createAlert (cfg : CapConfig) (f : Feature) : Alert :=
  { identifier := urlEncode (f.properties.parent_name ++ "." ++ f.properties.level_name
                             ++ "." ++ f.properties.last_updated)
    sender := cfg.sender
    sent := f.properties.last_updated
    info := createInfo cfg f }

/-- Modelled from the spec: the feed serializer maps every feature through
`createAlert` and excludes alerts whose Info is absent from the feed entries. -/
def geoJsonToAtomCapEntries (cfg : CapConfig) (features : List Feature) : List Alert :=
  (features.map (createAlert cfg)).filter (fun a => a.info.isSome)

/-- Concrete CAP configuration used by the witnesses. -/
def capCfgW : CapConfig :=
  { sender := "sender@example.org"
    severity := fun _ => "Severe"
    headline := fun _ => "Flood Warning"
    description := fun _ => "Flooding reported"
    expiryHorizon := fun t => t }

/-- The unit tests' base feature, with state 0. -/
def featureState0 : Feature :=
  { properties := { state := 0, last_updated := "2016-02-16 10:36:50.568724"
                    level_name := "foo foo", parent_name := "bar" }
    geometry := .polygon [[(1, 2), (3, 4)]] }

/-- The unit tests' base feature, with state 1. -/
def featureState1 : Feature :=
  { properties := { state := 1, last_updated := "2016-02-16 10:36:50.568724"
                    level_name := "foo foo", parent_name := "bar" }
    geometry := .polygon [[(1, 2), (3, 4)]] }

/-- The unit tests' feature whose parent name contains a markup character. -/
def featureMarkup : Feature :=
  { properties := { state := 1, last_updated := "2016-02-16 10:36:50.568724"
                    level_name := "foo foo", parent_name := "1<2" }
    geometry := .polygon [[(1, 2), (3, 4)]] }

/-- A record set as returned by the data layer: possibly a feature-collection-shaped
object (`features` present), plus other attributes, plus the injected QueryTime. -/
structure RecordSet where
  features : Option (List Feature)
  rows : List (String × String)
  queryTime : Option String
deriving DecidableEq, Repr

/-- A topology encoding as produced by the external topojson library: arcs plus
objects (the input collection), plus the injected QueryTime. -/
structure Topology where
  arcs : List (List Coord)
  objects : RecordSet
  queryTime : Option String
deriving DecidableEq, Repr

/-- Models the external topojson library call
`topojson.topology({collection:data}, ...)` (server.js line 558): the result is a
topology whose objects hold the input collection; the arc encoding itself is the
library's concern and is abstracted (the claims depend only on the top-level shape). -/
def topojsonTopology (d : RecordSet) : Topology :=
  { arcs := [], objects := d, queryTime := none }

/-- A response body: either serialized JSON of a record set, or of a topology. -/
inductive ResponseBody where
  | jsonData (d : RecordSet)
  | topology (t : Topology)
deriving DecidableEq, Repr

/-- server.js HttpResponse typedef (lines 533-540): code, headers, body (null = none). -/
structure HttpResponse where
  code : Nat
  headers : List (String × String)
  body : Option ResponseBody
deriving DecidableEq, Repr

/-- server.js `addTimestampToResponse` (lines 589-591) acting on a record set:
sets the top-level QueryTime field to the formatted current time. -/
def addTimestampToData (d : RecordSet) (qt : String) : RecordSet :=
  { d with queryTime := some qt }

/-- server.js `addTimestampToResponse` (lines 589-591) acting on a topology. -/
def addTimestampToTopology (t : Topology) (qt : String) : Topology :=
  { t with queryTime := some qt }

/-- A thrown JavaScript error (propagated, not a value). -/
inductive JsError where
  | typeError
deriving DecidableEq, Repr

/-- server.js `prepareResponse` (lines 551-581), else branch: JSON response with
QueryTime injected when data is present, `{204, {}, null}` when absent. -/
def prepareJsonBranch (data : Option RecordSet) (qt : String) : Except JsError HttpResponse :=
  match data with
  | some d => .ok { code := 200, headers := [("Content-type", "application/json")]
                    body := some (.jsonData (addTimestampToData d qt)) }
  | none => .ok { code := 204, headers := [], body := none }

/-- server.js `prepareResponse` (lines 551-581). The topojson branch is taken when
`format === 'topojson' && data.features`; reading `.features` of an absent record
set throws a TypeError, matching the source's unguarded property access. `qt` stands
for the formatted current time used by `addTimestampToResponse`. -/
def prepareResponse (format : Option String) (data : Option RecordSet) (qt : String) :
    Except JsError HttpResponse :=
  if format = some "topojson" then
    match data with
    | none => .error .typeError
    | some d =>
      if d.features.isSome then
        .ok { code := 200, headers := [("Content-type", "application/json")]
              body := some (.topology (addTimestampToTopology (topojsonTopology d) qt)) }
      else prepareJsonBranch (some d) qt
  else prepareJsonBranch data qt

/-- One record of the memory-cache store: key, value, absolute expiry time. -/
structure CacheRecord where
  key : String
  value : HttpResponse
  expire : Int
deriving DecidableEq, Repr

/-- The in-process response cache (the memory-cache dependency's store). -/
abbrev MemCache := List CacheRecord

/-- Models the memory-cache dependency's `put(key, value, time)`: stores the value
with absolute expiry `now + ttl`, replacing any existing record for the key. -/
def cachePut (c : MemCache) (key : String) (v : HttpResponse) (ttl now : Int) : MemCache :=
  { key := key, value := v, expire := now + ttl } :: c.filter (fun r => r.key ≠ key)

/-- Models the memory-cache dependency's `get(key)` with lazy expiry: a record is
served while `now ≤ expire` and is a miss afterwards. -/
def cacheGet (c : MemCache) (key : String) (now : Int) : Option HttpResponse :=
  match c.find? (fun r => r.key == key) with
  | some r => if now ≤ r.expire then some r.value else none
  | none => none

/-- server.js `cacheTemporarily` (lines 501-503): store the response under the request
signature with the configured cache timeout. -/
def cacheTemporarily (c : MemCache) (cacheKey : String) (data : HttpResponse)
    (cacheTimeout now : Int) : MemCache :=
  cachePut c cacheKey data cacheTimeout now

/-- Outcome of the `aggregates/live` parameter handling for the query window start. -/
inductive HoursOutcome where
  | invalid
  | start (s : Int)
  | jsError
deriving DecidableEq, Repr

/-- server.js lines 334-337: the `hours` parameter, when present, must be one of
1, 3, 6, 24, otherwise a 400 error is raised. -/
def hoursInvalid : Option String → Bool
  | some h => !(h == "1" || h == "3" || h == "6" || h == "24")
  | none => false

/-- server.js lines 334-355: validation and window-start computation for
`aggregates/live`. `nowSec` stands for `Math.floor(Date.now()/1000)`. The source's
24-hour branch tests `req.query.houts` (a misspelling of `hours`) and, were it taken,
would call `Math.flood` — not a function, hence a thrown TypeError. -/
def aggregatesLiveStart (hours houts : Option String) (nowSec : Int) : HoursOutcome :=
  if hoursInvalid hours then .invalid
  else if hours = some "3" then .start (nowSec - 10800)
  else if hours = some "6" then .start (nowSec - 21600)
  else if houts = some "24" then .jsError
  else .start (nowSec - 3600)

/-- Concrete record set with a (empty, hence still truthy in the source) feature
collection, used by the witnesses. -/
def recordSetW : RecordSet := { features := some [], rows := [("k", "v")], queryTime := none }

/-- Concrete envelope used by the cache witness. -/
def envW : HttpResponse := { code := 200, headers := [], body := none }

/-- Boolean test that the first character list starts the second. -/
def listStartsWith : List Char → List Char → Bool
  | [], _ => true
  | _ :: _, [] => false
  | a :: as, b :: bs => a == b && listStartsWith as bs

/-- Boolean test that the first character list occurs somewhere in the second
(an unanchored RegExp match, as used by the cache middleware route). -/
def listContains (pat : List Char) : List Char → Bool
  | [] => listStartsWith pat []
  | c :: rest => listStartsWith pat (c :: rest) || listContains pat rest

/-- A path starts with the given pattern (Express `path*` route matching). -/
def pathStartsWith (pat s : String) : Bool := listStartsWith pat.data s.data

/-- A path contains the given pattern (unanchored `new RegExp(...)` route matching). -/
def pathContains (pat s : String) : Bool := listContains pat.data s.data

/-- server.js line 275: the favicon path served by the unprotected router. -/
def faviconPath (p : String) : String := "/" ++ p ++ "/img/petajakarta_icon_32x32.png"

/-- server.js line 404: the unauthenticated flooded-states route path. -/
def remFloodedPath (p : String) : String := "/" ++ p ++ "/data/api/v2/rem/flooded"

/-- server.js line 447: the DIMS states route path. -/
def remDimsPath (p : String) : String := "/" ++ p ++ "/data/api/v2/rem/dims"

/-- server.js line 315: the spatio-temporal aggregates route path. -/
def aggregatesLivePath (p : String) : String := "/" ++ p ++ "/data/api/v2/aggregates/live"

/-- server.js line 301: the deprecated v1 data API path pattern. -/
def v1PathPat (p : String) : String := "/" ++ p ++ "/data/api/v1"

/-- server.js line 306: the cache middleware's v2 data API regex pattern. -/
def v2PathPat (p : String) : String := "/" ++ p ++ "/data/api/v2/"

/-- An incoming HTTP request: method, path, raw query string, session auth state. -/
structure HttpRequest where
  method : String
  path : String
  query : String
  authenticated : Bool
deriving DecidableEq, Repr

/-- Express `req.originalUrl`: the request signature — path plus raw query string. -/
def originalUrl (r : HttpRequest) : String := r.path ++ r.query

/-- Which handler ends a request's middleware traversal. -/
inductive RouteOutcome where
  | staticFile
  | loginPage
  | loginSubmit
  | authRedirect
  | langRedirect
  | v1Redirect
  | servedFromCache (env : HttpResponse)
  | remFloodedHandler
  | aggregatesLiveHandler
  | remFloodedPut
  | remDimsHandler
  | currentUserHandler
  | logoutHandler
  | notFound
deriving DecidableEq, Repr

/-- server.js request dispatch. The app mounts `unprotectedRouter` then
`protectedRouter`, both at `/` (lines 488-489); within each router, routes match in
registration order. `p` is `config.url_prefix`, `root` is `config.root_redirect`,
`publicFile` tells which paths the protected static file server (line 278) resolves
to an existing file (it calls next() otherwise). The cache-lookup middleware
(lines 306-312) lives on the protected router only, after the login guard
(line 270): it serves the cached envelope for the request signature on a hit and
falls through to the matching v2 data route on a miss. The route registered for
GET `/rem/flooded` on the unprotected router (line 404) therefore handles such
requests before the cache middleware can ever run for them. -/
def dispatch (p root : String) (publicFile : String → Bool) (cache : MemCache)
    (now : Int) (r : HttpRequest) : RouteOutcome :=
  if r.path = faviconPath p then .staticFile
  else if r.path = "/robots.txt" then .staticFile
  else if r.method = "GET" ∧ r.path = remFloodedPath p then .remFloodedHandler
  else if r.method = "GET" ∧ r.path = "/login" then .loginPage
  else if r.method = "POST" ∧ r.path = "/login" then .loginSubmit
  else if ¬ r.authenticated then .authRedirect
  else if publicFile r.path then .staticFile
  else if r.method = "GET" ∧ (r.path = "/" ∨ r.path = "/" ++ root) then .langRedirect
  else if r.method = "GET" ∧ pathStartsWith (v1PathPat p) r.path then .v1Redirect
  else if r.method = "GET" ∧ pathContains (v2PathPat p) r.path then
    match cacheGet cache (originalUrl r) now with
    | some env => .servedFromCache env
    | none =>
      if r.path = aggregatesLivePath p then .aggregatesLiveHandler
      else if r.path = remDimsPath p then .remDimsHandler
      else .notFound
  else if r.method = "PUT" ∧ pathStartsWith (remFloodedPath p ++ "/") r.path then .remFloodedPut
  else if r.path = "/currentUser" then .currentUserHandler
  else if r.method = "GET" ∧ r.path = "/logout" then .logoutHandler
  else .notFound

/-- A concrete authenticated GET request to the flooded-states route. -/
def reqRemW : HttpRequest :=
  { method := "GET", path := remFloodedPath "pj", query := "", authenticated := true }

/-- A cache holding an unexpired envelope under the flooded-states signature. -/
def cacheRemW : MemCache := [{ key := originalUrl reqRemW, value := envW, expire := 1000 }]

/-- A concrete authenticated GET request to the aggregates route. -/
def reqAggW : HttpRequest :=
  { method := "GET", path := aggregatesLivePath "pj", query := "?hours=3"
    authenticated := true }

/-- A cache holding an unexpired envelope under the aggregates signature. -/
def cacheAggW : MemCache := [{ key := originalUrl reqAggW, value := envW, expire := 50 }]

theorem capMembers_single (rings : List (List Coord)) :
    capMembers (rings.map (fun r => [r])) = some (rings.map capRing) := by
  induction rings with
  | nil => rfl
  | cons r rest ih => simp [capMembers, memberExteriorRing, ih]

/-- Claim C2: a Polygon with exactly one ring converts to exactly one polygon string,
each pair `[a,b]` rendered `"b,a"` at its position, joined by single spaces in order. -/
theorem createArea_single_ring (props : FeatureProps) (ring : List Coord) :
    createArea { properties := props, geometry := .polygon [ring] } =
      some { polygon :=
        [String.intercalate " " (ring.map (fun c => toString c.2 ++ "," ++ toString c.1))] } :=
  rfl

/-- Claim C3: a MultiPolygon with N single-ring members converts to exactly N polygon
strings, the i-th string converting the i-th member, order preserved. -/
theorem createArea_multi (props : FeatureProps) (rings : List (List Coord)) :
    createArea { properties := props
                 geometry := .multiPolygon (rings.map (fun r => [r])) } =
      some { polygon := rings.map capRing } ∧
    (rings.map capRing).length = rings.length := by
  refine ⟨?_, by simp⟩
  simp [createArea, toCapArea, capMembers_single]

/-- Claim C4: an unsupported geometry type, or a Polygon with more than one ring,
yields an absent area (the conversion is a total function: no exception). -/
theorem createArea_rejects (props : FeatureProps) (tag : String)
    (r1 r2 : List Coord) (rest : List (List Coord)) :
    createArea { properties := props, geometry := .other tag } = none ∧
    createArea { properties := props, geometry := .polygon (r1 :: r2 :: rest) } = none :=
  ⟨rfl, rfl⟩

theorem mem_filter_isSome (cfg : CapConfig) (fs : List Feature) (a : Alert)
    (ha : a ∈ geoJsonToAtomCapEntries cfg fs) : a.info.isSome = true := by
  have := List.mem_filter.mp ha
  simpa using this.2

/-- Claim C5: `createInfo` is absent for `state <= 0`, present for `state > 0` with a
valid (convertible) geometry, and features with absent Info never appear among the
entries of a serialized CAP feed. -/
theorem createInfo_state_gate (cfg : CapConfig) (f : Feature) (fs : List Feature) :
    (f.properties.state ≤ 0 → createInfo cfg f = none) ∧
    (0 < f.properties.state → (createArea f).isSome = true → (createInfo cfg f).isSome = true) ∧
    (∀ a ∈ geoJsonToAtomCapEntries cfg fs, a.info.isSome = true) := by
  refine ⟨?_, ?_, ?_⟩
  · intro h
    simp [createInfo, h]
  · intro hpos hsome
    rcases Option.isSome_iff_exists.mp hsome with ⟨area, harea⟩
    simp [createInfo, harea, Int.not_le.mpr hpos]
  · intro a ha
    exact mem_filter_isSome cfg fs a ha

theorem createInfo_state_gate_witness :
    createInfo capCfgW featureState0 = none ∧
    (createInfo capCfgW featureState1).isSome = true ∧
    (∀ a ∈ geoJsonToAtomCapEntries capCfgW [featureState0, featureState1],
      a.info.isSome = true) :=
  ⟨(createInfo_state_gate capCfgW featureState0 []).1 (by decide),
   (createInfo_state_gate capCfgW featureState1 []).2.1 (by decide) (by rfl),
   (createInfo_state_gate capCfgW featureState0
      [featureState0, featureState1]).2.2⟩

theorem hexDigit_ne_lt (n : Nat) : hexDigit n ≠ '<' := by
  unfold hexDigit
  split <;> decide

theorem lt_not_mem_encodeChar (c : Char) : '<' ∉ encodeChar c := by
  unfold encodeChar
  split
  · rename_i hsafe
    simp only [List.mem_singleton]
    intro he
    rw [← he] at hsafe
    revert hsafe
    decide
  · intro hm
    simp only [List.mem_cons, List.not_mem_nil, or_false] at hm
    rcases hm with h | h | h
    · revert h; decide
    · exact hexDigit_ne_lt _ h.symm
    · exact hexDigit_ne_lt _ h.symm

theorem lt_not_mem_urlEncode (s : String) : '<' ∉ (urlEncode s).data := by
  intro h
  rcases List.mem_flatMap.mp h with ⟨c, _, hc⟩
  exact lt_not_mem_encodeChar c hc

/-- Claim C6: for a feature with a property containing `<`, the built Alert's
identifier contains no raw `<` character. -/
theorem createAlert_identifier_encoded (cfg : CapConfig) (f : Feature)
    (h : '<' ∈ f.properties.parent_name.data) :
    '<' ∉ (createAlert cfg f).identifier.data :=
  lt_not_mem_urlEncode _

theorem createAlert_identifier_encoded_witness :
    '<' ∈ featureMarkup.properties.parent_name.data ∧
    '<' ∉ (createAlert capCfgW featureMarkup).identifier.data :=
  ⟨by decide, createAlert_identifier_encoded capCfgW featureMarkup (by decide)⟩

/-- Claim C7: with format `topojson` and a record set carrying features, the response
is 200 application/json with a topology-shaped body (arcs + objects), not a raw
feature collection; with any other or absent format, a present record set passes
through with only the top-level QueryTime field injected. -/
theorem prepareResponse_format_selection :
    (∀ (d : RecordSet) (qt : String), d.features.isSome = true →
      prepareResponse (some "topojson") (some d) qt =
        .ok { code := 200, headers := [("Content-type", "application/json")]
              body := some (.topology { arcs := (topojsonTopology d).arcs
                                        objects := d
                                        queryTime := some qt }) }) ∧
    (∀ (format : Option String) (d : RecordSet) (qt : String), format ≠ some "topojson" →
      prepareResponse format (some d) qt =
        .ok { code := 200, headers := [("Content-type", "application/json")]
              body := some (.jsonData { d with queryTime := some qt }) }) := by
  constructor
  · intro d qt h
    simp [prepareResponse, h, addTimestampToTopology, topojsonTopology]
  · intro format d qt h
    simp [prepareResponse, h, prepareJsonBranch, addTimestampToData]

theorem prepareResponse_format_selection_witness :
    prepareResponse (some "topojson") (some recordSetW) "T" =
      .ok { code := 200, headers := [("Content-type", "application/json")]
            body := some (.topology { arcs := (topojsonTopology recordSetW).arcs
                                      objects := recordSetW
                                      queryTime := some "T" }) } ∧
    prepareResponse none (some recordSetW) "T" =
      .ok { code := 200, headers := [("Content-type", "application/json")]
            body := some (.jsonData { recordSetW with queryTime := some "T" }) } :=
  ⟨prepareResponse_format_selection.1 recordSetW "T" (by decide),
   prepareResponse_format_selection.2 none recordSetW "T" (by decide)⟩

/-- Claim C8: on the JSON branch, an absent record set yields exactly the envelope
`{code: 204, headers: {}, body: null}`. -/
theorem prepareResponse_empty_204 (format : Option String) (qt : String)
    (h : format ≠ some "topojson") :
    prepareResponse format none qt = .ok { code := 204, headers := [], body := none } := by
  simp [prepareResponse, h, prepareJsonBranch]

theorem prepareResponse_empty_204_witness :
    prepareResponse none none "T" = .ok { code := 204, headers := [], body := none } :=
  prepareResponse_empty_204 none "T" (by decide)

/-- Claim C9: storing an envelope under a signature with a nonnegative TTL and reading
it back immediately returns that envelope; reading after the TTL has elapsed (strictly
more than `ttl` after the put) is a miss. -/
theorem cache_put_get_ttl (c : MemCache) (sig : String) (env : HttpResponse)
    (ttl now later : Int) (h0 : 0 ≤ ttl) (hl : now + ttl < later) :
    cacheGet (cacheTemporarily c sig env ttl now) sig now = some env ∧
    cacheGet (cacheTemporarily c sig env ttl now) sig later = none := by
  constructor
  · simp [cacheGet, cacheTemporarily, cachePut, List.find?]
    omega
  · simp [cacheGet, cacheTemporarily, cachePut, List.find?]
    omega

theorem cache_put_get_ttl_witness :
    cacheGet (cacheTemporarily [] "/sig?a=1" envW 60 100) "/sig?a=1" 100 = some envW ∧
    cacheGet (cacheTemporarily [] "/sig?a=1" envW 60 100) "/sig?a=1" 161 = none :=
  cache_put_get_ttl [] "/sig?a=1" envW 60 100 161 (by decide) (by decide)

/-- Claim C10: a request to `aggregates/live` with `hours=24` passes validation, yet
the computed window start is `now - 3600` (the 1-hour default), not `now - 86400` —
the source's 24-hour branch tests the misspelled `houts` parameter and never fires. -/
theorem aggregatesLive_hours24 (nowSec : Int) :
    aggregatesLiveStart (some "24") none nowSec = .start (nowSec - 3600) ∧
    aggregatesLiveStart (some "24") none nowSec ≠ .invalid ∧
    aggregatesLiveStart (some "24") none nowSec ≠ .start (nowSec - 86400) := by
  refine ⟨?_, ?_, ?_⟩ <;> simp [aggregatesLiveStart, hoursInvalid]

theorem remFlooded_ne_favicon (p : String) : remFloodedPath p ≠ faviconPath p := by
  intro h
  have h2 := congrArg String.length h
  simp only [remFloodedPath, faviconPath, String.length_append] at h2
  have e1 : ("/data/api/v2/rem/flooded" : String).length = 24 := rfl
  have e2 : ("/img/petajakarta_icon_32x32.png" : String).length = 31 := rfl
  omega

theorem remFlooded_ne_robots (p : String) : remFloodedPath p ≠ "/robots.txt" := by
  intro h
  have h2 := congrArg String.length h
  simp only [remFloodedPath, String.length_append] at h2
  have e0 : ("/" : String).length = 1 := rfl
  have e1 : ("/data/api/v2/rem/flooded" : String).length = 24 := rfl
  have e2 : ("/robots.txt" : String).length = 11 := rfl
  omega

/-- Claim C1 counterexample: at time 0 the cache holds an unexpired envelope for the
exact signature of a GET to `/rem/flooded`, yet dispatch hands the request to the
unprotected router's fresh handler, not to the cached envelope — the cache-lookup
middleware on the protected router is never reached for this path. -/
theorem remFlooded_cached_not_served :
    cacheGet cacheRemW (originalUrl reqRemW) 0 = some envW ∧
    dispatch "pj" "home" (fun _ => false) cacheRemW 0 reqRemW = .remFloodedHandler ∧
    dispatch "pj" "home" (fun _ => false) cacheRemW 0 reqRemW ≠ .servedFromCache envW := by
  decide

/-- Claim C1 as amended: an unexpired cache entry is read back and served only for
GET requests that reach the protected router's cache middleware — an authenticated
request whose path matches the v2 data pattern and no earlier route. Requests to the
unprotected `/rem/flooded` route never consult the cache: they are handled fresh
regardless of any cache entry for their signature, so the envelopes that route
writes are never read back. -/
theorem dispatch_cache_readback (p root : String) (publicFile : String → Bool) :
    (∀ (r : HttpRequest) (cache : MemCache) (now : Int) (env : HttpResponse),
      r.method = "GET" → r.authenticated = true →
      r.path ≠ faviconPath p → r.path ≠ "/robots.txt" → r.path ≠ remFloodedPath p →
      r.path ≠ "/login" → publicFile r.path = false →
      r.path ≠ "/" → r.path ≠ "/" ++ root →
      pathStartsWith (v1PathPat p) r.path = false →
      pathContains (v2PathPat p) r.path = true →
      cacheGet cache (originalUrl r) now = some env →
      dispatch p root publicFile cache now r = .servedFromCache env) ∧
    (∀ (cache : MemCache) (now : Int) (q : String) (auth : Bool),
      dispatch p root publicFile cache now
        { method := "GET", path := remFloodedPath p, query := q, authenticated := auth } =
        .remFloodedHandler) := by
  constructor
  · intro r cache now env hm hauth hfav hrob hrem hlog hpub hroot1 hroot2 hv1 hv2 hhit
    simp [dispatch, hm, hauth, hfav, hrob, hrem, hlog, hpub, hroot1, hroot2, hv1, hv2, hhit]
  · intro cache now q auth
    have hfav := remFlooded_ne_favicon p
    have hrob := remFlooded_ne_robots p
    simp [dispatch, hfav, hrob]

theorem dispatch_cache_readback_witness :
    dispatch "pj" "home" (fun _ => false) cacheAggW 0 reqAggW = .servedFromCache envW ∧
    dispatch "pj" "home" (fun _ => false) [] 0
      { method := "GET", path := remFloodedPath "pj", query := "", authenticated := false } =
      .remFloodedHandler :=
  ⟨(dispatch_cache_readback "pj" "home" (fun _ => false)).1 reqAggW cacheAggW 0 envW
      rfl rfl (by decide) (by decide) (by decide) (by decide) rfl
      (by decide) (by decide) (by decide) (by decide) (by decide),
   (dispatch_cache_readback "pj" "home" (fun _ => false)).2 [] 0 "" false⟩
